import Mathlib

/-!
Verification of the PDF417 healthcare barcode parser
(`src/lib/pdf417-parser.ts`, `src/lib/utils.ts`) of the
`pdf417-to-form` repository.

Strings are Lean `String`s; JavaScript objects holding the mapped record
are modelled as association lists in insertion order (`objSet` mirrors a
JS property assignment: it updates an existing key in place, otherwise
appends).  All functions are executable.
-/

/-- JavaScript `String.prototype.trim` on the character list: drop
whitespace from both ends. -/
def jsTrim (l : List Char) : List Char :=
  ((l.dropWhile Char.isWhitespace).reverse.dropWhile Char.isWhitespace).reverse

/-- `sanitizeInput` from `src/lib/utils.ts`:
`input.trim().replace(/[\n\r]/g, '')` — trim, then delete every carriage
return and newline character (the global single-character regex replace is
a filter). -/
def sanitizeInput (input : String) : String :=
  ⟨(jsTrim input.data).filter (fun c => !(c == '\n' || c == '\r'))⟩

/-- Auxiliary for `splitOnTab`: accumulates the current field (reversed). -/
def splitOnTabAux : List Char → List Char → List String
  | [], acc => [⟨acc.reverse⟩]
  | c :: rest, acc =>
      if c = '\t' then ⟨acc.reverse⟩ :: splitOnTabAux rest []
      else splitOnTabAux rest (c :: acc)

/-- JavaScript `str.split('\t')`: split on every tab character; the empty
string yields `[""]`, and adjacent/trailing tabs yield empty fields. -/
def splitOnTab (l : List Char) : List String :=
  splitOnTabAux l []

/-- JavaScript `s.substring(a, b)` (for `a ≤ b`): the characters from
position `a` (inclusive) to `b` (exclusive). -/
def substringJs (s : String) (a b : Nat) : String :=
  ⟨(s.data.take b).drop a⟩

/-- `parseGermanDate` from `src/lib/utils.ts`: `null` (here `none`) on an
empty token, the literal `"00000000"`, or a token whose length is not 8;
otherwise the pure substring rearrangement `YYYYMMDD → YYYY-MM-DD`. -/
def parseGermanDate (dateStr : String) : Option String :=
  if dateStr == "" || dateStr == "00000000" || dateStr.length != 8 then none
  else
    some (substringJs dateStr 0 4 ++ "-" ++ substringJs dateStr 4 6 ++ "-" ++
      substringJs dateStr 6 8)

/-- The `type` member of a barcode field definition
(`src/types/healthcare.ts`). -/
inductive FieldType where
  | string
  | date
  | numeric
deriving DecidableEq, Repr

/-- `BarcodeFieldDefinition` from `src/types/healthcare.ts`; optional
members default to `none` as in TypeScript. -/
structure BarcodeFieldDefinition where
  name : String
  index : Nat
  type : Option FieldType := none
  maxLength : Option Nat := none
  allowedValues : Option (List String) := none
  required : Option Bool := none
  transform : Option (String → String) := none

/-- `FormSchema` from `src/types/healthcare.ts`. -/
structure FormSchema where
  formCode : String
  name : String
  fields : List BarcodeFieldDefinition

/-- `ParsedBarcodeData` from `src/types/healthcare.ts`; the `data` object
is an association list in insertion order. -/
structure ParsedBarcodeData where
  formType : String
  isValid : Bool
  errors : List String
  data : List (String × String)
deriving DecidableEq, Repr

/-- JavaScript property assignment `obj[k] = v` on an insertion-ordered
association list: update an existing binding in place, else append. -/
def objSet (obj : List (String × String)) (k v : String) : List (String × String) :=
  if obj.any (fun p => p.fst == k) then
    obj.map (fun p => if p.fst == k then (k, v) else p)
  else
    obj ++ [(k, v)]

/-- JavaScript property read `obj[k]`: the binding for `k`, if any. -/
def getProp (obj : List (String × String)) (k : String) : Option String :=
  match obj.find? (fun p => p.fst == k) with
  | some p => some p.snd
  | none => none

/-- The value the mapper would store for one field definition: `none` when
the field is skipped (reserved name, empty raw token, `null`/empty
transformed value), `some v` when `result[name] = v` is executed.  This is
the body of the `forEach` in `mapFieldsToSchema`
(`src/lib/pdf417-parser.ts`, lines 101-124) as a per-field function. -/
def fieldValue (fields : List String) (fieldDef : BarcodeFieldDefinition) : Option String :=
  if "reserved".data.isPrefixOf fieldDef.name.data then none
  else
    let value := fields.getD fieldDef.index ""
    if value = "" then none
    else
      let value' : Option String :=
        match fieldDef.transform with
        | some t => some (t value)
        | none =>
            if fieldDef.type = some FieldType.date then parseGermanDate value
            else some value
      match value' with
      | some v => if v = "" then none else some v
      | none => none

/-- One iteration of the `forEach` in `mapFieldsToSchema`: perform the
assignment when `fieldValue` produced a value. -/
def mapStep (fields : List String) (result : List (String × String))
    (fieldDef : BarcodeFieldDefinition) : List (String × String) :=
  match fieldValue fields fieldDef with
  | some v => objSet result fieldDef.name v
  | none => result

/-- `mapFieldsToSchema` from `src/lib/pdf417-parser.ts`: fold the schema's
field definitions in order over an initially empty record. -/
def mapFieldsToSchema (fields : List String) (schema : FormSchema) : List (String × String) :=
  schema.fields.foldl (mapStep fields) []

/-- JavaScript truthiness of a possibly-absent string property
(`undefined` and `''` are falsy). -/
def truthy : Option String → Bool
  | none => false
  | some s => s != ""

/-- JavaScript `key.includes('datum')`: substring containment. -/
def containsDatum (s : String) : Bool :=
  (List.range (s.data.length + 1)).any (fun i => "datum".data.isPrefixOf (s.data.drop i))

/-- The regex `/^\d{4}-\d{2}-\d{2}$|^\d{8}$/` used by `validateParsedData`. -/
def datePattern (s : String) : Bool :=
  (s.data.length == 10
    && (s.data.take 4).all Char.isDigit
    && s.data.getD 4 ' ' == '-'
    && ((s.data.drop 5).take 2).all Char.isDigit
    && s.data.getD 7 ' ' == '-'
    && ((s.data.drop 8).take 2).all Char.isDigit)
  || (s.data.length == 8 && s.data.all Char.isDigit)

/-- `validateParsedData` from `src/lib/pdf417-parser.ts`: required
identification fields, date-shape check over every key containing
`"datum"`, then the hardcoded `versichertenart` and `geschlecht`
enumerations; errors accumulate in push order. -/
def validateParsedData (data : List (String × String)) : List String :=
  let idErrors :=
    if !truthy (getProp data "formularcode") || !truthy (getProp data "versionsnummer") then
      ["Missing required form identification fields"]
    else []
  let dateErrors :=
    data.filterMap (fun entry =>
      if containsDatum entry.fst && entry.snd != "" then
        if datePattern entry.snd then none
        else some ("Invalid date format for " ++ entry.fst ++ ": " ++ entry.snd)
      else none)
  let vaErrors :=
    match getProp data "versichertenart" with
    | some v =>
        if v != "" && !(v == "1" || v == "3" || v == "5") then
          ["Invalid insurance type: " ++ v]
        else []
    | none => []
  let geErrors :=
    match getProp data "geschlecht" with
    | some v =>
        if v != "" && !(v == "M" || v == "W" || v == "X" || v == "D") then
          ["Invalid gender value: " ++ v]
        else []
    | none => []
  idErrors ++ dateErrors ++ vaErrors ++ geErrors

/-- The regex replace `formCode.replace(/^0+/, '')`: strip the leading run
of `'0'` characters. -/
def stripLeadingZeros (s : String) : String :=
  ⟨s.data.dropWhile (fun c => c == '0')⟩

/-- `normalizeFormCode` from `src/lib/pdf417-parser.ts`: strip leading
zeros; fall back to the original code when the result is empty. -/
def normalizeFormCode (formCode : String) : String :=
  let normalized := stripLeadingZeros formCode
  if normalized = "" then formCode else normalized

/-- `getMuster10Schema` from `src/lib/pdf417-parser.ts`. -/
def muster10Schema : FormSchema where
  formCode := "10"
  name := "Muster 10 - Laborauftrag"
  fields := [
    { name := "formularcode", index := 0, required := some true },
    { name := "formularcodeergaenzung", index := 1, required := some true },
    { name := "versionsnummer", index := 2, required := some true },
    { name := "anforderungsIdent", index := 3 },
    { name := "nachname", index := 4, maxLength := some 45 },
    { name := "vorname", index := 5, maxLength := some 45 },
    { name := "geburtsdatum", index := 6, type := some FieldType.date },
    { name := "versicherungsschutzEnde", index := 7, type := some FieldType.date },
    { name := "kostentraegerkennung", index := 8, maxLength := some 9 },
    { name := "kostentraegername", index := 9 },
    { name := "wopKennzeichen", index := 10 },
    { name := "versichertenId", index := 11, maxLength := some 12 },
    { name := "versichertenart", index := 12, allowedValues := some ["1", "3", "5"] },
    { name := "besonderePersonengruppe", index := 13,
      allowedValues := some ["00", "04", "06", "07", "08", "09"] },
    { name := "dmpKennzeichnung", index := 14, maxLength := some 2 },
    { name := "bsnrErstveranlasser", index := 15, maxLength := some 9 },
    { name := "lanrErstveranlasser", index := 16, maxLength := some 9 },
    { name := "bsnrUeberweiser", index := 17, maxLength := some 9 },
    { name := "lanrUeberweiser", index := 18, maxLength := some 9 },
    { name := "ausstellungsdatum", index := 19, type := some FieldType.date },
    { name := "geschlecht", index := 20, allowedValues := some ["M", "W", "X", "D"] },
    { name := "titel", index := 21, maxLength := some 20 },
    { name := "plz", index := 22, maxLength := some 10 },
    { name := "ort", index := 23, maxLength := some 40 },
    { name := "strasse", index := 24, maxLength := some 46 },
    { name := "hausnummer", index := 25, maxLength := some 9 },
    { name := "diagnose", index := 26, maxLength := some 70 },
    { name := "verdachtsdiagnose", index := 27 },
    { name := "befundkopie", index := 28 },
    { name := "auftrag", index := 29 }
  ]

/-- `getMuster6Schema` from `src/lib/pdf417-parser.ts`. -/
def muster6Schema : FormSchema where
  formCode := "6"
  name := "Muster 6 - Überweisung"
  fields := [
    { name := "formularcode", index := 0, required := some true },
    { name := "formularcodeergaenzung", index := 1 },
    { name := "versionsnummer", index := 2, required := some true },
    { name := "reserved1", index := 3 },
    { name := "nachname", index := 4, maxLength := some 45 },
    { name := "vorname", index := 5, maxLength := some 45 },
    { name := "geburtsdatum", index := 6, type := some FieldType.date },
    { name := "reserved2", index := 7 },
    { name := "kostentraegerkennung", index := 8, maxLength := some 9 },
    { name := "kostentraegername", index := 9 },
    { name := "wopKennzeichen", index := 10 },
    { name := "versichertenId", index := 11, maxLength := some 12 },
    { name := "versichertenart", index := 12, allowedValues := some ["1", "3", "5"] },
    { name := "besonderePersonengruppe", index := 13,
      allowedValues := some ["00", "04", "06", "07", "08", "09"] },
    { name := "dmpKennzeichnung", index := 14, maxLength := some 2 },
    { name := "bsnrErstveranlasser", index := 15, maxLength := some 9 },
    { name := "lanrErstveranlasser", index := 16, maxLength := some 9 },
    { name := "ausstellungsdatum", index := 17, type := some FieldType.date },
    { name := "geschlecht", index := 18, allowedValues := some ["M", "W", "X", "D"] },
    { name := "titel", index := 19, maxLength := some 20 },
    { name := "reserved3", index := 20 },
    { name := "reserved4", index := 21 },
    { name := "plz", index := 22, maxLength := some 10 },
    { name := "ort", index := 23, maxLength := some 40 },
    { name := "strasse", index := 24, maxLength := some 46 },
    { name := "hausnummer", index := 25, maxLength := some 9 },
    { name := "reserved5", index := 26 },
    { name := "fachbereich", index := 27 },
    { name := "reserved6", index := 28 },
    { name := "reserved7", index := 29 },
    { name := "reserved8", index := 30 },
    { name := "reserved9", index := 31 },
    { name := "reserved10", index := 32 },
    { name := "reserved11", index := 33 },
    { name := "reserved12", index := 34 },
    { name := "fachrichtung", index := 35 },
    { name := "reserved13", index := 36 },
    { name := "reserved14", index := 37 },
    { name := "reserved15", index := 38 },
    { name := "diagnose", index := 39 },
    { name := "ueberweisungsgrund", index := 40 }
  ]

/-- `getMuster12Schema` from `src/lib/pdf417-parser.ts`. -/
def muster12Schema : FormSchema where
  formCode := "12"
  name := "Muster 12 - Verordnung häuslicher Krankenpflege"
  fields := [
    { name := "formularcode", index := 0, required := some true },
    { name := "formularcodeergaenzung", index := 1, required := some true },
    { name := "versionsnummer", index := 2, required := some true },
    { name := "nachname", index := 3, maxLength := some 45 },
    { name := "vorname", index := 4, maxLength := some 45 },
    { name := "geburtsdatum", index := 5, type := some FieldType.date },
    { name := "versicherungsschutzEnde", index := 6, type := some FieldType.date },
    { name := "kostentraegerkennung", index := 7, maxLength := some 9 },
    { name := "kostentraegername", index := 8 },
    { name := "versichertenId", index := 9, maxLength := some 12 },
    { name := "versichertenart", index := 10, allowedValues := some ["1", "3", "5"] },
    { name := "besonderePersonengruppe", index := 11,
      allowedValues := some ["00", "04", "06", "07", "08", "09"] },
    { name := "ausstellungsdatum", index := 12, type := some FieldType.date },
    { name := "geschlecht", index := 13, allowedValues := some ["M", "W", "X", "D"] },
    { name := "strasse", index := 14, maxLength := some 46 },
    { name := "hausnummer", index := 15, maxLength := some 9 },
    { name := "plz", index := 16, maxLength := some 10 },
    { name := "ort", index := 17, maxLength := some 40 }
  ]

/-- `getMuster16Schema` from `src/lib/pdf417-parser.ts`. -/
def muster16Schema : FormSchema where
  formCode := "16"
  name := "Muster 16 - Verordnung medizinischer Rehabilitation"
  fields := [
    { name := "formularcode", index := 0, required := some true },
    { name := "formularcodeergaenzung", index := 1, required := some true },
    { name := "versionsnummer", index := 2, required := some true },
    { name := "nachname", index := 3, maxLength := some 45 },
    { name := "vorname", index := 4, maxLength := some 45 },
    { name := "geburtsdatum", index := 5, type := some FieldType.date },
    { name := "versicherungsschutzEnde", index := 6, type := some FieldType.date },
    { name := "kostentraegerkennung", index := 7, maxLength := some 9 },
    { name := "versichertenId", index := 8, maxLength := some 12 },
    { name := "versichertenart", index := 9, allowedValues := some ["1", "3", "5"] },
    { name := "ausstellungsdatum", index := 10, type := some FieldType.date },
    { name := "geschlecht", index := 11, allowedValues := some ["M", "W", "X", "D"] }
  ]

/-- The schema registry built by `initializeSchemas` in the constructor:
an insertion-ordered map from normalized form code to schema. -/
def schemas : List (String × FormSchema) :=
  [("10", muster10Schema), ("6", muster6Schema), ("12", muster12Schema), ("16", muster16Schema)]

/-- Raw registry lookup `this.schemas.get(code)` (no normalization). -/
def schemasGet (code : String) : Option FormSchema :=
  match schemas.find? (fun p => p.fst == code) with
  | some p => some p.snd
  | none => none

/-- `getSchemaForForm` from `src/lib/pdf417-parser.ts`: normalize the form
code, then look it up in the registry. -/
def getSchemaForForm (formCode : String) : Option FormSchema :=
  schemasGet (normalizeFormCode formCode)

/-- `parse` from `src/lib/pdf417-parser.ts`: sanitize, split on tabs,
check the token count, resolve the schema, map and validate. -/
def parse (barcodeData : String) : ParsedBarcodeData :=
  let sanitizedData := sanitizeInput barcodeData
  let fields := splitOnTab sanitizedData.data
  if fields.length < 3 then
    { formType := "10"
      isValid := false
      errors := ["Invalid barcode format: insufficient fields"]
      data := [] }
  else
    let formularcode := fields.getD 0 ""
    let formularcodeergaenzung := fields.getD 1 ""
    let versionsnummer := fields.getD 2 ""
    let normalizedFormCode := normalizeFormCode formularcode
    match getSchemaForForm formularcode with
    | none =>
        { formType := normalizedFormCode
          isValid := false
          errors := ["Unsupported form type: " ++ formularcode]
          data := [("formularcode", formularcode),
                   ("formularcodeergaenzung", formularcodeergaenzung),
                   ("versionsnummer", versionsnummer)] }
    | some schema =>
        let result := mapFieldsToSchema fields schema
        let errors := validateParsedData result
        { formType := normalizedFormCode
          isValid := errors.length == 0
          errors := errors
          data := result }

/-- The spec's Muster 10 laboratory-request scenario payload. -/
def muster10ScenarioInput : String :=
  "10\ta\t01\tREQ1\tMustermann\tMax\t19850615\t20241231\t123456789\tAOK Bayern\tBY\tA123456789\t1\t00\t01\t123456789\t987654321\t123456789\t987654321\t20241226\tM\tDr.\t80331\tMünchen\tMaximilianstraße\t1\tV70.9\t\tJa\tBlutbild"

/-- The scenario payload with two schema-constraint violations: `nachname`
(index 4) is 46 characters long (`maxLength` 45) and
`besonderePersonengruppe` (index 13) is `"99"`, outside its declared
`allowedValues` set. -/
def muster10ConstraintViolationInput : String :=
  "10\ta\t01\tREQ1\taaaaaaaaaaaaaaaaaaaaaaaaaaaaaaaaaaaaaaaaaaaaaa\tMax\t19850615\t20241231\t123456789\tAOK Bayern\tBY\tA123456789\t1\t99\t01\t123456789\t987654321\t123456789\t987654321\t20241226\tM\tDr.\t80331\tMünchen\tMaximilianstraße\t1\tV70.9\t\tJa\tBlutbild"

/-- A Muster 10 payload whose `geburtsdatum` token (index 6) is the
non-numeric 8-character string `"ABCDEFGH"`. -/
def muster10NonNumericDateInput : String :=
  "10\ta\t01\tREQ1\tMustermann\tMax\tABCDEFGH"

/-- The `geburtsdatum` field definition of the Muster 10 schema. -/
def muster10DateField : BarcodeFieldDefinition :=
  { name := "geburtsdatum", index := 6, type := some FieldType.date }

/-! ### Helper lemmas about the association-list object model -/

theorem getProp_nil (k : String) : getProp [] k = none := rfl

theorem getProp_cons (p : String × String) (r : List (String × String)) (k : String) :
    getProp (p :: r) k = if p.fst = k then some p.snd else getProp r k := by
  by_cases h : p.fst = k
  · have hb : (p.fst == k) = true := by simpa using h
    simp [getProp, List.find?, hb, h]
  · have hb : (p.fst == k) = false := by simpa using h
    simp [getProp, List.find?, hb, h]

theorem getProp_map_upd_self (r : List (String × String)) (k v : String)
    (h : r.any (fun p => p.fst == k) = true) :
    getProp (r.map (fun p => if p.fst == k then (k, v) else p)) k = some v := by
  induction r with
  | nil => simp at h
  | cons p t ih =>
      by_cases hp : p.fst = k
      · simp [getProp_cons, hp]
      · simp only [List.any_cons, Bool.or_eq_true, beq_iff_eq] at h
        rcases h with h | h
        · exact absurd h hp
        · simp only [List.map_cons]
          rw [show (if p.fst == k then (k, v) else p) = p by simp [hp]]
          rw [getProp_cons, if_neg hp]
          exact ih h

theorem getProp_map_upd_other (r : List (String × String)) (k v k' : String) (h : k' ≠ k) :
    getProp (r.map (fun p => if p.fst == k then (k, v) else p)) k' = getProp r k' := by
  induction r with
  | nil => rfl
  | cons p t ih =>
      simp only [List.map_cons]
      by_cases hp : p.fst = k
      · rw [show (if p.fst == k then (k, v) else p) = (k, v) by simp [hp]]
        rw [getProp_cons, getProp_cons, if_neg (fun hk => h hk.symm),
          if_neg (fun hk => h ((hp.symm.trans hk).symm)), ih]
      · rw [show (if p.fst == k then (k, v) else p) = p by simp [hp]]
        rw [getProp_cons, getProp_cons, ih]

theorem getProp_append_single_other (r : List (String × String)) (k v k' : String)
    (h : k' ≠ k) :
    getProp (r ++ [(k, v)]) k' = getProp r k' := by
  induction r with
  | nil =>
      rw [List.nil_append, getProp_cons, if_neg (fun hk => h hk.symm)]
  | cons p t ih =>
      rw [List.cons_append, getProp_cons, getProp_cons, ih]

theorem getProp_append_single_self (r : List (String × String)) (k v : String)
    (h : r.any (fun p => p.fst == k) = false) :
    getProp (r ++ [(k, v)]) k = some v := by
  induction r with
  | nil => simp [getProp_cons]
  | cons p t ih =>
      simp only [List.any_cons, Bool.or_eq_false_iff] at h
      rw [List.cons_append, getProp_cons, if_neg (by simpa using h.1)]
      exact ih h.2

theorem getProp_none_of_not_any (r : List (String × String)) (k : String)
    (h : r.any (fun p => p.fst == k) = false) : getProp r k = none := by
  induction r with
  | nil => rfl
  | cons p t ih =>
      simp only [List.any_cons, Bool.or_eq_false_iff] at h
      rw [getProp_cons, if_neg (by simpa using h.1)]
      exact ih h.2

theorem getProp_objSet (r : List (String × String)) (k v k' : String) :
    getProp (objSet r k v) k' = if k' = k then some v else getProp r k' := by
  unfold objSet
  by_cases hany : r.any (fun p => p.fst == k) = true
  · rw [if_pos hany]
    by_cases hk : k' = k
    · subst hk; rw [if_pos rfl]; exact getProp_map_upd_self r k' v hany
    · rw [if_neg hk]; exact getProp_map_upd_other r k v k' hk
  · rw [if_neg hany]
    by_cases hk : k' = k
    · subst hk; rw [if_pos rfl]
      exact getProp_append_single_self r k' v (Bool.eq_false_iff.mpr hany)
    · rw [if_neg hk]; exact getProp_append_single_other r k v k' hk

/-! ### Helper lemmas about the field mapper -/

theorem foldl_mapStep_getProp_none (fields : List String) (fds : List BarcodeFieldDefinition)
    (acc : List (String × String)) (name : String)
    (h : ∀ fd ∈ fds, fd.name = name → fieldValue fields fd = none) :
    getProp (fds.foldl (mapStep fields) acc) name = getProp acc name := by
  induction fds generalizing acc with
  | nil => rfl
  | cons fd rest ih =>
      rw [List.foldl_cons]
      have step : getProp (mapStep fields acc fd) name = getProp acc name := by
        unfold mapStep
        cases hv : fieldValue fields fd with
        | none => rfl
        | some v =>
            by_cases hn : fd.name = name
            · rw [h fd (List.mem_cons_self _ _) hn] at hv
              exact Option.noConfusion hv
            · rw [getProp_objSet, if_neg (fun he => hn he.symm)]
      rw [ih _ (fun fd' hm hn => h fd' (List.mem_cons_of_mem _ hm) hn), step]

theorem foldl_mapStep_getProp_some (fields : List String) (fds : List BarcodeFieldDefinition)
    (acc : List (String × String)) (name v : String)
    (hall : ∀ fd ∈ fds, fd.name = name → fieldValue fields fd = some v)
    (hex : ∃ fd ∈ fds, fd.name = name) :
    getProp (fds.foldl (mapStep fields) acc) name = some v := by
  induction fds generalizing acc with
  | nil => rcases hex with ⟨fd, hm, _⟩; cases hm
  | cons fd rest ih =>
      rw [List.foldl_cons]
      by_cases hrest : ∃ fd' ∈ rest, fd'.name = name
      · exact ih _ (fun fd' hm hn => hall fd' (List.mem_cons_of_mem _ hm) hn) hrest
      · rcases hex with ⟨fd0, hm, hn0⟩
        rcases List.mem_cons.mp hm with rfl | hm'
        · have hv : fieldValue fields fd0 = some v := hall fd0 (List.mem_cons_self _ _) hn0
          rw [foldl_mapStep_getProp_none fields rest _ name
            (fun fd' hm hn => absurd ⟨fd', hm, hn⟩ hrest)]
          unfold mapStep
          rw [hv, getProp_objSet, if_pos hn0.symm]
        · exact absurd ⟨fd0, hm', hn0⟩ hrest

theorem fieldValue_ne_empty (fields : List String) (fd : BarcodeFieldDefinition) (v : String)
    (h : fieldValue fields fd = some v) : v ≠ "" := by
  simp only [fieldValue] at h
  by_cases hr : "reserved".data.isPrefixOf fd.name.data
  · rw [if_pos hr] at h; exact Option.noConfusion h
  · rw [if_neg hr] at h
    by_cases he : fields.getD fd.index "" = ""
    · rw [if_pos he] at h; exact Option.noConfusion h
    · rw [if_neg he] at h
      cases htr : fd.transform with
      | some t =>
          rw [htr] at h
          dsimp only at h
          by_cases hv : t (fields.getD fd.index "") = ""
          · rw [if_pos hv] at h; exact Option.noConfusion h
          · rw [if_neg hv] at h
            cases h; exact hv
      | none =>
          rw [htr] at h
          dsimp only at h
          by_cases hd : fd.type = some FieldType.date
          · rw [if_pos hd] at h
            cases hpg : parseGermanDate (fields.getD fd.index "") with
            | none => rw [hpg] at h; exact Option.noConfusion h
            | some w =>
                rw [hpg] at h
                dsimp only at h
                by_cases hw : w = ""
                · rw [if_pos hw] at h; exact Option.noConfusion h
                · rw [if_neg hw] at h; cases h; exact hw
          · rw [if_neg hd] at h
            dsimp only at h
            by_cases hv : fields.getD fd.index "" = ""
            · exact absurd hv he
            · rw [if_neg hv] at h; cases h; exact hv

theorem mem_objSet (r : List (String × String)) (k v : String) (p : String × String)
    (h : p ∈ objSet r k v) : p = (k, v) ∨ p ∈ r := by
  unfold objSet at h
  split at h
  · rcases List.mem_map.mp h with ⟨q, hq, hqe⟩
    by_cases hk : q.fst = k
    · left; rw [← hqe]; simp [hk]
    · right; rw [← hqe]; simp [hk]; exact hq
  · rcases List.mem_append.mp h with h' | h'
    · right; exact h'
    · left; simpa using h'

theorem foldl_mapStep_values_ne_empty (fields : List String)
    (fds : List BarcodeFieldDefinition) (acc : List (String × String))
    (hacc : ∀ p ∈ acc, p.snd ≠ "") :
    ∀ p ∈ fds.foldl (mapStep fields) acc, p.snd ≠ "" := by
  induction fds generalizing acc with
  | nil => exact hacc
  | cons fd rest ih =>
      rw [List.foldl_cons]
      apply ih
      intro p hp
      unfold mapStep at hp
      cases hfv : fieldValue fields fd with
      | none => rw [hfv] at hp; exact hacc p hp
      | some v =>
          rw [hfv] at hp
          rcases mem_objSet _ _ _ _ hp with rfl | hp'
          · exact fieldValue_ne_empty fields fd v hfv
          · exact hacc p hp'

theorem getD_append_replicate (l : List String) (n i : Nat) :
    (l ++ List.replicate n "").getD i "" = l.getD i "" := by
  rcases Nat.lt_or_ge i l.length with h | h
  · rw [List.getD_append _ _ _ _ h]
  · rw [List.getD_eq_default _ _ h]
    rcases Nat.lt_or_ge i (l.length + n) with h2 | h2
    · have hlt : i - l.length < n := by omega
      rw [List.getD_append_right _ _ _ _ h, List.getD_eq_getElem?_getD,
        List.getElem?_replicate]
      simp [hlt]
    · rw [List.getD_eq_default]
      simp only [List.length_append, List.length_replicate]
      omega

theorem fieldValue_pad (fields : List String) (fd : BarcodeFieldDefinition) (n : Nat) :
    fieldValue (fields ++ List.replicate n "") fd = fieldValue fields fd := by
  unfold fieldValue
  rw [getD_append_replicate]

theorem mapFieldsToSchema_pad (fields : List String) (schema : FormSchema) (n : Nat) :
    mapFieldsToSchema (fields ++ List.replicate n "") schema = mapFieldsToSchema fields schema := by
  unfold mapFieldsToSchema
  have hstep : mapStep (fields ++ List.replicate n "") = mapStep fields := by
    funext acc fd
    unfold mapStep
    rw [fieldValue_pad]
  rw [hstep]

theorem getSchemaForForm_mem {c : String} {sch : FormSchema}
    (h : getSchemaForForm c = some sch) :
    sch = muster10Schema ∨ sch = muster6Schema ∨ sch = muster12Schema ∨ sch = muster16Schema := by
  unfold getSchemaForForm schemasGet schemas at h
  by_cases h1 : ((("10", muster10Schema) : String × FormSchema).fst == normalizeFormCode c) = true
  · rw [List.find?_cons_of_pos (p := fun q : String × FormSchema => q.fst == normalizeFormCode c) _ h1] at h
    dsimp only at h
    exact Or.inl (Option.some.inj h).symm
  · rw [List.find?_cons_of_neg (p := fun q : String × FormSchema => q.fst == normalizeFormCode c) _ h1] at h
    by_cases h2 : ((("6", muster6Schema) : String × FormSchema).fst == normalizeFormCode c) = true
    · rw [List.find?_cons_of_pos (p := fun q : String × FormSchema => q.fst == normalizeFormCode c) _ h2] at h
      dsimp only at h
      exact Or.inr (Or.inl (Option.some.inj h).symm)
    · rw [List.find?_cons_of_neg (p := fun q : String × FormSchema => q.fst == normalizeFormCode c) _ h2] at h
      by_cases h3 : ((("12", muster12Schema) : String × FormSchema).fst == normalizeFormCode c) = true
      · rw [List.find?_cons_of_pos (p := fun q : String × FormSchema => q.fst == normalizeFormCode c) _ h3] at h
        dsimp only at h
        exact Or.inr (Or.inr (Or.inl (Option.some.inj h).symm))
      · rw [List.find?_cons_of_neg (p := fun q : String × FormSchema => q.fst == normalizeFormCode c) _ h3] at h
        by_cases h4 : ((("16", muster16Schema) : String × FormSchema).fst == normalizeFormCode c) = true
        · rw [List.find?_cons_of_pos (p := fun q : String × FormSchema => q.fst == normalizeFormCode c) _ h4] at h
          dsimp only at h
          exact Or.inr (Or.inr (Or.inr (Option.some.inj h).symm))
        · rw [List.find?_cons_of_neg (p := fun q : String × FormSchema => q.fst == normalizeFormCode c) _ h4] at h
          dsimp only [List.find?] at h
          exact Option.noConfusion h

theorem fieldValue_of_raw_empty (fields : List String) (fd : BarcodeFieldDefinition)
    (h : fields.getD fd.index "" = "") : fieldValue fields fd = none := by
  unfold fieldValue
  by_cases hr : "reserved".data.isPrefixOf fd.name.data
  · rw [if_pos hr]
  · rw [if_neg hr]
    dsimp only
    rw [h, if_pos rfl]

theorem validateParsedData_missing_vers (data : List (String × String))
    (h : getProp data "versionsnummer" = none) :
    ∃ rest, validateParsedData data = "Missing required form identification fields" :: rest := by
  unfold validateParsedData
  rw [h]
  simp only [truthy, Bool.not_false, Bool.or_true, if_true]
  exact ⟨_, rfl⟩

theorem parse_formType_of_ge3 (s : String)
    (h3 : ¬ (splitOnTab (sanitizeInput s).data).length < 3) :
    (parse s).formType = normalizeFormCode ((splitOnTab (sanitizeInput s).data).getD 0 "") := by
  simp only [parse]
  rw [if_neg h3]
  cases hsch : getSchemaForForm ((splitOnTab (sanitizeInput s).data).getD 0 "") with
  | none => rfl
  | some sch => rfl

theorem fieldValue_date (fields : List String) (fd : BarcodeFieldDefinition)
    (hdate : fd.type = some FieldType.date) (htr : fd.transform = none)
    (hres : "reserved".data.isPrefixOf fd.name.data = false)
    (hne : fields.getD fd.index "" ≠ "") :
    fieldValue fields fd =
      match parseGermanDate (fields.getD fd.index "") with
      | some v => if v = "" then none else some v
      | none => none := by
  unfold fieldValue
  rw [if_neg (by simp [hres])]
  dsimp only
  rw [if_neg hne, htr]
  dsimp only
  rw [if_pos hdate]

theorem jsTrim_sublist (l : List Char) : List.Sublist (jsTrim l) l := by
  unfold jsTrim
  have h1 : List.Sublist ((l.dropWhile Char.isWhitespace).reverse.dropWhile Char.isWhitespace)
      (l.dropWhile Char.isWhitespace).reverse := List.dropWhile_sublist _
  have h2 := h1.reverse
  rw [List.reverse_reverse] at h2
  exact h2.trans (List.dropWhile_sublist _)

/-! ### The claims -/

/-- Claim C1: parsing the exact Muster 10 scenario input yields
`formType = "10"`, `isValid = true`, no errors, and
`nachname = "Mustermann"`, `geburtsdatum = "1985-06-15"`,
`versichertenart = "1"` in the mapped data. -/
theorem claim_C1 :
    (parse muster10ScenarioInput).formType = "10"
    ∧ (parse muster10ScenarioInput).isValid = true
    ∧ (parse muster10ScenarioInput).errors = []
    ∧ getProp (parse muster10ScenarioInput).data "nachname" = some "Mustermann"
    ∧ getProp (parse muster10ScenarioInput).data "geburtsdatum" = some "1985-06-15"
    ∧ getProp (parse muster10ScenarioInput).data "versichertenart" = some "1" := by
  decide

/-- Claim C2 (evidence of the violation): on a Muster 10 record whose
`besonderePersonengruppe` is `"99"` (outside the schema's `allowedValues`
`{"00","04","06","07","08","09"}`) and whose `nachname` is 46 characters
long (over the schema's `maxLength` 45), `validateParsedData` emits no
violation at all: the parse result has an empty error list and
`isValid = true`.  The validator never iterates the schema's field
definitions, so schema-declared `allowedValues`/`maxLength` constraints are
not enforced, contradicting the claim. -/
theorem claim_C2_code_bug :
    getProp (parse muster10ConstraintViolationInput).data "besonderePersonengruppe" = some "99"
    ∧ (getProp (parse muster10ConstraintViolationInput).data "nachname").map String.length =
        some 46
    ∧ (parse muster10ConstraintViolationInput).errors = []
    ∧ (parse muster10ConstraintViolationInput).isValid = true := by
  decide

/-- Claim C3 (counterexample): the claim says every tab is preserved
verbatim, including at the start or end of the string; but on the input
`"\t10\ta"` (two tabs) the sanitizer returns `"10\ta"` (one tab): the
leading tab is removed by `trim()`. -/
theorem claim_C3_counterexample :
    ("\t10\ta" : String).data.count '\t' = 2
    ∧ (sanitizeInput "\t10\ta").data.count '\t' = 1
    ∧ sanitizeInput "\t10\ta" = "10\ta" := by
  decide

/-- Claim C3 (amended): the sanitizer removes every carriage return and
newline, deletes nothing else (the output is a subsequence of the input),
preserves every tab that survives the leading/trailing whitespace trim
(leading and trailing tabs are trimmed away as whitespace), is total, and
returns the empty string on empty input. -/
theorem claim_C3_amended (s : String) :
    (sanitizeInput s).data.count '\n' = 0
    ∧ (sanitizeInput s).data.count '\r' = 0
    ∧ List.Sublist (sanitizeInput s).data s.data
    ∧ (sanitizeInput s).data.count '\t' = (jsTrim s.data).count '\t'
    ∧ sanitizeInput "" = "" := by
  refine ⟨?_, ?_, ?_, ?_, rfl⟩
  · rw [List.count_eq_zero]
    intro hmem
    have hp := List.of_mem_filter hmem
    simp at hp
  · rw [List.count_eq_zero]
    intro hmem
    have hp := List.of_mem_filter hmem
    simp at hp
  · exact (List.filter_sublist _).trans (jsTrim_sublist _)
  · exact List.count_filter (by decide)

/-- Claim C4: whenever the sanitized input splits into fewer than 3
tab-separated tokens, `parse` returns the terminal failure result:
`formType = "10"`, `isValid = false`, exactly the single
insufficient-fields error, and an empty data mapping. -/
theorem claim_C4 (s : String) (h : (splitOnTab (sanitizeInput s).data).length < 3) :
    parse s = { formType := "10", isValid := false,
                errors := ["Invalid barcode format: insufficient fields"], data := [] } := by
  simp only [parse]
  rw [if_pos h]

/-- Claim C4 witness: the input `"abc"` splits into one token and gets the
terminal failure result. -/
theorem claim_C4_witness :
    (splitOnTab (sanitizeInput "abc").data).length < 3 ∧
    parse "abc" = { formType := "10", isValid := false,
                    errors := ["Invalid barcode format: insufficient fields"], data := [] } :=
  ⟨by decide, claim_C4 "abc" (by decide)⟩

/-- Claim C5: whenever the input has at least 3 tokens and the normalized
form code has no registered schema, `parse` returns `isValid = false`, the
single unsupported-form error naming the raw code, and a data mapping
holding exactly the three identification tokens. -/
theorem claim_C5 (s : String)
    (h3 : ¬ (splitOnTab (sanitizeInput s).data).length < 3)
    (hns : getSchemaForForm ((splitOnTab (sanitizeInput s).data).getD 0 "") = none) :
    parse s = { formType := normalizeFormCode ((splitOnTab (sanitizeInput s).data).getD 0 ""),
                isValid := false,
                errors := ["Unsupported form type: " ++ (splitOnTab (sanitizeInput s).data).getD 0 ""],
                data := [("formularcode", (splitOnTab (sanitizeInput s).data).getD 0 ""),
                         ("formularcodeergaenzung", (splitOnTab (sanitizeInput s).data).getD 1 ""),
                         ("versionsnummer", (splitOnTab (sanitizeInput s).data).getD 2 "")] } := by
  simp only [parse]
  rw [if_neg h3, hns]

/-- Claim C5 witness: the spec's unsupported-code scenario `"99\ta\t01"`. -/
theorem claim_C5_witness :
    (¬ (splitOnTab (sanitizeInput "99\ta\t01").data).length < 3) ∧
    getSchemaForForm ((splitOnTab (sanitizeInput "99\ta\t01").data).getD 0 "") = none ∧
    parse "99\ta\t01" = { formType := "99", isValid := false,
                          errors := ["Unsupported form type: 99"],
                          data := [("formularcode", "99"), ("formularcodeergaenzung", "a"),
                                   ("versionsnummer", "01")] } :=
  ⟨by decide, rfl, claim_C5 "99\ta\t01" (by decide) rfl⟩

/-- Claim C6: schema lookup strips leading zeros and looks up the stripped
code, falling back to the original code only when stripping leaves the
empty string; consequently two inputs whose form-code tokens strip to the
same non-empty code and whose remaining tokens agree resolve the same
schema and produce the same `formType`. -/
theorem claim_C6 (code s1 s2 : String)
    (hstrip : stripLeadingZeros ((splitOnTab (sanitizeInput s1).data).getD 0 "") =
              stripLeadingZeros ((splitOnTab (sanitizeInput s2).data).getD 0 ""))
    (hne : stripLeadingZeros ((splitOnTab (sanitizeInput s1).data).getD 0 "") ≠ "")
    (h1 : ¬ (splitOnTab (sanitizeInput s1).data).length < 3)
    (h2 : ¬ (splitOnTab (sanitizeInput s2).data).length < 3)
    (_hrest : (splitOnTab (sanitizeInput s1).data).drop 1 =
              (splitOnTab (sanitizeInput s2).data).drop 1) :
    ((stripLeadingZeros code ≠ "" → normalizeFormCode code = stripLeadingZeros code)
      ∧ (stripLeadingZeros code = "" → normalizeFormCode code = code)
      ∧ getSchemaForForm code = schemasGet (normalizeFormCode code))
    ∧ getSchemaForForm ((splitOnTab (sanitizeInput s1).data).getD 0 "") =
        getSchemaForForm ((splitOnTab (sanitizeInput s2).data).getD 0 "")
    ∧ (parse s1).formType = (parse s2).formType := by
  have hnorm : ∀ c : String, stripLeadingZeros c ≠ "" →
      normalizeFormCode c = stripLeadingZeros c :=
    fun c hc => by simp [normalizeFormCode, hc]
  have hn1 := hnorm _ hne
  have hn2 := hnorm _ (fun h => hne (hstrip.trans h))
  refine ⟨⟨hnorm code, fun hc => by simp [normalizeFormCode, hc], rfl⟩, ?_, ?_⟩
  · unfold getSchemaForForm
    rw [hn1, hn2, hstrip]
  · rw [parse_formType_of_ge3 s1 h1, parse_formType_of_ge3 s2 h2, hn1, hn2, hstrip]

/-- Claim C6 witness: `"06\tb\t01"` and `"6\tb\t01"` resolve the same
schema and the same form type. -/
theorem claim_C6_witness :
    (stripLeadingZeros ((splitOnTab (sanitizeInput "06\tb\t01").data).getD 0 "") =
      stripLeadingZeros ((splitOnTab (sanitizeInput "6\tb\t01").data).getD 0 ""))
    ∧ (stripLeadingZeros ((splitOnTab (sanitizeInput "06\tb\t01").data).getD 0 "") ≠ "")
    ∧ getSchemaForForm ((splitOnTab (sanitizeInput "06\tb\t01").data).getD 0 "") =
        getSchemaForForm ((splitOnTab (sanitizeInput "6\tb\t01").data).getD 0 "")
    ∧ (parse "06\tb\t01").formType = (parse "6\tb\t01").formType := by
  refine ⟨by decide, by decide, ?_, ?_⟩
  · exact (claim_C6 "06" "06\tb\t01" "6\tb\t01" (by decide) (by decide) (by decide)
      (by decide) (by decide)).2.1
  · exact (claim_C6 "06" "06\tb\t01" "6\tb\t01" (by decide) (by decide) (by decide)
      (by decide) (by decide)).2.2

/-- Claim C7: the field mapper treats out-of-range indices as the empty
string (padding the token array with empty strings changes nothing), every
field whose per-field value resolves to empty/`null` — reserved
placeholders included — is absent as a key, and no key is ever present
with an empty value. -/
theorem claim_C7 (fields : List String) (schema : FormSchema) (name : String) (n : Nat)
    (h : ∀ fd ∈ schema.fields, fd.name = name → fieldValue fields fd = none) :
    mapFieldsToSchema (fields ++ List.replicate n "") schema = mapFieldsToSchema fields schema
    ∧ getProp (mapFieldsToSchema fields schema) name = none
    ∧ ∀ p ∈ mapFieldsToSchema fields schema, p.snd ≠ "" := by
  refine ⟨mapFieldsToSchema_pad fields schema n, ?_, ?_⟩
  · exact foldl_mapStep_getProp_none fields schema.fields [] name h
  · exact foldl_mapStep_values_ne_empty fields schema.fields []
      (fun p hp => absurd hp (List.not_mem_nil p))

/-- Claim C7 witness: a three-token array against the Muster 10 schema —
all 27 further fields are out of range, `verdachtsdiagnose` is absent. -/
theorem claim_C7_witness :
    (∀ fd ∈ muster10Schema.fields, fd.name = "verdachtsdiagnose" →
      fieldValue ["10", "a", "01"] fd = none) ∧
    (mapFieldsToSchema (["10", "a", "01"] ++ List.replicate 40 "") muster10Schema =
      mapFieldsToSchema ["10", "a", "01"] muster10Schema
    ∧ getProp (mapFieldsToSchema ["10", "a", "01"] muster10Schema) "verdachtsdiagnose" = none
    ∧ ∀ p ∈ mapFieldsToSchema ["10", "a", "01"] muster10Schema, p.snd ≠ "") :=
  ⟨by decide, claim_C7 ["10", "a", "01"] muster10Schema "verdachtsdiagnose" 40 (by decide)⟩

/-- Claim C8: for a date-typed field definition (no custom transform, not
reserved), the token `"20241231"` maps to `"2024-12-31"`, while the
all-zero token `"00000000"` and any token whose length is not 8 leave the
field absent from the mapping; no error is possible (the conversion is a
total function). -/
theorem claim_C8 (fields : List String) (schema : FormSchema) (fd : BarcodeFieldDefinition)
    (hmem : fd ∈ schema.fields)
    (hdate : fd.type = some FieldType.date)
    (htr : fd.transform = none)
    (hres : "reserved".data.isPrefixOf fd.name.data = false)
    (huniq : ∀ fd' ∈ schema.fields, fd'.name = fd.name →
      fieldValue fields fd' = fieldValue fields fd) :
    (fields.getD fd.index "" = "20241231" →
      getProp (mapFieldsToSchema fields schema) fd.name = some "2024-12-31")
    ∧ (fields.getD fd.index "" = "00000000" →
      getProp (mapFieldsToSchema fields schema) fd.name = none)
    ∧ ((fields.getD fd.index "").length ≠ 8 →
      getProp (mapFieldsToSchema fields schema) fd.name = none) := by
  refine ⟨?_, ?_, ?_⟩
  · intro hv
    have hfv : fieldValue fields fd = some "2024-12-31" := by
      rw [fieldValue_date fields fd hdate htr hres (by rw [hv]; decide), hv]
      decide
    exact foldl_mapStep_getProp_some fields schema.fields [] fd.name "2024-12-31"
      (fun fd' hm hn => (huniq fd' hm hn).trans hfv) ⟨fd, hmem, rfl⟩
  · intro hv
    have hfv : fieldValue fields fd = none := by
      rw [fieldValue_date fields fd hdate htr hres (by rw [hv]; decide), hv]
      rfl
    exact (foldl_mapStep_getProp_none fields schema.fields [] fd.name
      (fun fd' hm hn => (huniq fd' hm hn).trans hfv)).trans rfl
  · intro hlen
    have hfv : fieldValue fields fd = none := by
      by_cases hv : fields.getD fd.index "" = ""
      · exact fieldValue_of_raw_empty fields fd hv
      · have hb : ((fields.getD fd.index "").length != 8) = true := by simpa using hlen
        have hpg : parseGermanDate (fields.getD fd.index "") = none := by
          unfold parseGermanDate
          rw [if_pos (by simp only [hb, Bool.or_true])]
        rw [fieldValue_date fields fd hdate htr hres hv, hpg]
    exact (foldl_mapStep_getProp_none fields schema.fields [] fd.name
      (fun fd' hm hn => (huniq fd' hm hn).trans hfv)).trans rfl

/-- Claim C8 witness: the Muster 10 `geburtsdatum` field at index 6 with
the token `"20241231"`. -/
theorem claim_C8_witness :
    muster10DateField ∈ muster10Schema.fields ∧
    ((["10", "a", "01", "", "", "", "20241231"].getD muster10DateField.index "" = "20241231" →
      getProp (mapFieldsToSchema ["10", "a", "01", "", "", "", "20241231"] muster10Schema)
        muster10DateField.name = some "2024-12-31")
    ∧ (["10", "a", "01", "", "", "", "20241231"].getD muster10DateField.index "" = "00000000" →
      getProp (mapFieldsToSchema ["10", "a", "01", "", "", "", "20241231"] muster10Schema)
        muster10DateField.name = none)
    ∧ ((["10", "a", "01", "", "", "", "20241231"].getD muster10DateField.index "").length ≠ 8 →
      getProp (mapFieldsToSchema ["10", "a", "01", "", "", "", "20241231"] muster10Schema)
        muster10DateField.name = none)) := by
  have hmem : muster10DateField ∈ muster10Schema.fields := by
    unfold muster10DateField muster10Schema
    repeat first
      | exact List.mem_cons_self _ _
      | apply List.mem_cons_of_mem
  exact ⟨hmem, claim_C8 ["10", "a", "01", "", "", "", "20241231"] muster10Schema
    muster10DateField hmem rfl rfl (by decide) (by decide)⟩

/-- Claim C9: the date conversion performs no digit check — any 8-character
string other than `"00000000"` is rearranged into the dashed form, so the
non-numeric token `"ABCDEFGH"` maps to `"ABCD-EF-GH"` and lands in the
parse output. -/
theorem claim_C9 (s : String) (h8 : s.length = 8) (hz : s ≠ "00000000") :
    parseGermanDate s =
      some (substringJs s 0 4 ++ "-" ++ substringJs s 4 6 ++ "-" ++ substringJs s 6 8)
    ∧ parseGermanDate "ABCDEFGH" = some "ABCD-EF-GH"
    ∧ getProp (parse muster10NonNumericDateInput).data "geburtsdatum" = some "ABCD-EF-GH" := by
  have h1 : (s == "") = false := by
    rw [beq_eq_false_iff_ne]
    intro he
    rw [he] at h8
    exact absurd h8 (by decide)
  have h2 : (s == "00000000") = false := beq_eq_false_iff_ne.mpr hz
  have h3 : (s.length != 8) = false := by simp [h8]
  refine ⟨?_, by decide, by decide⟩
  simp [parseGermanDate, h1, h2, h3]

/-- Claim C9 witness: instantiated at the non-numeric 8-character token. -/
theorem claim_C9_witness :
    ("ABCDEFGH" : String).length = 8 ∧ ("ABCDEFGH" : String) ≠ "00000000" ∧
    parseGermanDate "ABCDEFGH" =
      some (substringJs "ABCDEFGH" 0 4 ++ "-" ++ substringJs "ABCDEFGH" 4 6 ++ "-" ++
        substringJs "ABCDEFGH" 6 8) :=
  ⟨by decide, by decide, (claim_C9 "ABCDEFGH" (by decide) (by decide)).1⟩

/-- Claim C10: with at least 3 tokens and a registered schema, an empty
version-number token (index 2) makes `versionsnummer` absent from the
sparse mapping, so validation emits the missing-required-identification
error and the result is invalid. -/
theorem claim_C10 (s : String) (sch : FormSchema)
    (h3 : ¬ (splitOnTab (sanitizeInput s).data).length < 3)
    (hs : getSchemaForForm ((splitOnTab (sanitizeInput s).data).getD 0 "") = some sch)
    (hv : (splitOnTab (sanitizeInput s).data).getD 2 "" = "") :
    "Missing required form identification fields" ∈ (parse s).errors ∧
    (parse s).isValid = false := by
  have hidx : ∀ fd ∈ sch.fields, fd.name = "versionsnummer" → fd.index = 2 := by
    rcases getSchemaForForm_mem hs with rfl | rfl | rfl | rfl <;> decide
  have hnone : getProp (mapFieldsToSchema (splitOnTab (sanitizeInput s).data) sch)
      "versionsnummer" = none := by
    unfold mapFieldsToSchema
    refine (foldl_mapStep_getProp_none _ _ _ _ ?_).trans rfl
    intro fd hm hn
    exact fieldValue_of_raw_empty _ _ (by rw [hidx fd hm hn]; exact hv)
  obtain ⟨rest, hrest⟩ := validateParsedData_missing_vers _ hnone
  simp only [parse]
  rw [if_neg h3, hs]
  dsimp only
  rw [hrest]
  exact ⟨List.mem_cons_self _ _, by simp⟩

/-- Claim C10 witness: the input `"10\ta\t\tx"` has 4 tokens, resolves the
Muster 10 schema, and its version-number token is empty. -/
theorem claim_C10_witness :
    (¬ (splitOnTab (sanitizeInput "10\ta\t\tx").data).length < 3) ∧
    getSchemaForForm ((splitOnTab (sanitizeInput "10\ta\t\tx").data).getD 0 "") =
      some muster10Schema ∧
    (splitOnTab (sanitizeInput "10\ta\t\tx").data).getD 2 "" = "" ∧
    ("Missing required form identification fields" ∈ (parse "10\ta\t\tx").errors ∧
      (parse "10\ta\t\tx").isValid = false) :=
  ⟨by decide, rfl, by decide, claim_C10 "10\ta\t\tx" muster10Schema (by decide) rfl (by decide)⟩

/-- Claim C3 amended witness: the amended sanitizer contract at the
concrete input `"\ta\nb"`. -/
theorem claim_C3_amended_witness :
    (sanitizeInput "\ta\nb").data.count '\n' = 0
    ∧ (sanitizeInput "\ta\nb").data.count '\r' = 0
    ∧ List.Sublist (sanitizeInput "\ta\nb").data ("\ta\nb" : String).data
    ∧ (sanitizeInput "\ta\nb").data.count '\t' = (jsTrim ("\ta\nb" : String).data).count '\t'
    ∧ sanitizeInput "" = "" :=
  claim_C3_amended "\ta\nb"
